import Mathlib

/-!
Shallow embedding of the kalyn-do inventory application core
(src/data_integrator.py, src/Input_Data_Baru.py,
src/services/delivery_order_service.py, src/pages/3_Generate_Delivery_Order.py).

The remote relational store is modelled as an explicit in-memory state `DB`;
each store round trip that can fail is guarded by an injected-failure oracle
(`none` = the call succeeds, `some e` = the store reports error payload `e`),
so the nominal path and the error paths of the Python functions are both
represented.  Machine integers are `Int`/`Nat` (Python ints are unbounded, so
no overflow modelling is needed).
-/

namespace Kalyn

/-- A single-quote character, used to build the Python error strings. -/
def sq : String := String.singleton (Char.ofNat 39)

/-! ## Data model (tables of the backing store) -/

/-- One row of the `category` lookup table. -/
structure CategoryRow where
  id : Nat
  category : String
  code : String
deriving DecidableEq, Repr

/-- One row of the `color` lookup table. -/
structure ColorRow where
  id : Nat
  color : String
deriving DecidableEq, Repr

/-- One row of the `item_name` lookup table. -/
structure ItemNameRow where
  id : Nat
  item_name : String
deriving DecidableEq, Repr

/-- One row of the `item` master table: the unique
(category_id, item_name_id, color_id) triple plus sku / created_year. -/
structure ItemRow where
  id : Nat
  category_id : Nat
  item_name_id : Nat
  color_id : Nat
  sku : String
  created_year : Option Int
deriving DecidableEq, Repr

/-- The four cost components handled by `insert_item`. -/
structure PriceComponents where
  harga_kain : Int
  ongkos_jahit : Int
  ongkos_transport : Int
  ongkos_packing : Int
deriving DecidableEq, Repr

/-- One row of `item_price_history`: a price version for one item.
`valid_to = none` means the version is still open (current). -/
structure PriceRow where
  id : Nat
  item_id : Nat
  comps : PriceComponents
  harga_jual : Option Int
  valid_to : Option Nat
deriving DecidableEq, Repr

/-- One row of the `item_stock` snapshot table (per item, store, size). -/
structure StockRow where
  item_id : Nat
  store_id : Nat
  size : String
  quantity : Int
deriving DecidableEq, Repr

/-- One row of the append-only `item_stock_log` movement ledger. -/
structure StockLogRow where
  id : Nat
  item_id : Nat
  store_id : Nat
  size : String
  movement_type : String
  quantity : Int
deriving DecidableEq, Repr

/-- The state of the backing store.  `now` stands for the wall-clock instant
`datetime.now(timezone.utc)` used when closing a price version; `next_*`
model the store-generated serial ids. -/
structure DB where
  categories : List CategoryRow
  colors : List ColorRow
  item_names : List ItemNameRow
  items : List ItemRow
  price_history : List PriceRow
  item_stock : List StockRow
  item_stock_log : List StockLogRow
  next_item_id : Nat
  next_price_id : Nat
  next_log_id : Nat
  now : Nat
deriving DecidableEq, Repr

/-- Modelled from the spec: the `item_price_current` database view (not part
of src/) exposes, per item, the currently open price version, i.e. the
`item_price_history` rows whose `valid_to` is unset ("at most one version per
item has valid_to = open (current)"). -/
def item_price_current (db : DB) : List PriceRow :=
  db.price_history.filter (fun r => r.valid_to == none)

/-! ## Stock ledger: insert_stock_log (src/data_integrator.py) -/

/-- The store round trips of `insert_stock_log` that can fail. -/
inductive LogStep where
  | itemLookup
  | logInsert
deriving DecidableEq, Repr

/-- The input row of `insert_stock_log`: a Python dict whose keys may be
absent, modelled with `Option` fields (`none` = key absent). -/
structure StockLogInput where
  item_id : Option Nat := none
  category_id : Option Nat := none
  item_name_id : Option Nat := none
  color_id : Option Nat := none
  store_id : Nat
  jumlah_barang : Option Int := none
  movement_type : String
  size : Option String := none
deriving DecidableEq, Repr

/-- The allowed movement kinds, as written in `insert_stock_log`. -/
def allowedMovementTypes : List String :=
  ["in_stock", "out", "adjustment", "transfer_in", "transfer_out"]

/-- Final part of `insert_stock_log`: build the payload (with
`row.get("size", "OS")` defaulting) and insert it into `item_stock_log`. -/
def insert_stock_log_write (fail : LogStep → Option String) (db : DB)
    (row : StockLogInput) (movement_type : String) (qty : Int) (item_id : Nat) :
    (Bool × String × Option StockLogRow) × DB :=
  let payload : StockLogRow :=
    { id := db.next_log_id
      item_id := item_id
      store_id := row.store_id
      size := row.size.getD "OS"
      movement_type := movement_type
      quantity := qty }
  match fail .logInsert with
  | some e => ((false, "Insert stock log failed: " ++ e, none), db)
  | none =>
      ((true, "Inserted stock log", some payload),
       { db with
          item_stock_log := db.item_stock_log ++ [payload]
          next_log_id := db.next_log_id + 1 })

/-- Middle part of `insert_stock_log`: resolve `item_id`, either taken
directly from the row or looked up from the (category_id, item_name_id,
color_id) triple, then write the ledger row. -/
def insert_stock_log_resolve (fail : LogStep → Option String) (db : DB)
    (row : StockLogInput) (movement_type : String) (qty : Int) :
    (Bool × String × Option StockLogRow) × DB :=
  match row.item_id with
  | some iid => insert_stock_log_write fail db row movement_type qty iid
  | none =>
    -- Fall back to lookup by category_id + item_name_id + color_id,
    -- reporting the first missing key in that order
    match row.category_id with
    | none => ((false, "Missing category_id to resolve item_id", none), db)
    | some cid =>
    match row.item_name_id with
    | none => ((false, "Missing item_name_id to resolve item_id", none), db)
    | some nid =>
    match row.color_id with
    | none => ((false, "Missing color_id to resolve item_id", none), db)
    | some colid =>
      match fail .itemLookup with
      | some e => ((false, "Item lookup failed: " ++ e, none), db)
      | none =>
        match (db.items.filter (fun it =>
            it.category_id == cid && it.item_name_id == nid &&
            it.color_id == colid)).head? with
        | none =>
            ((false, "Item not found for given category_id/item_name_id/color_id",
              none), db)
        | some it => insert_stock_log_write fail db row movement_type qty it.id

/-- `insert_stock_log` from src/data_integrator.py: validate the movement
kind, reject a missing or zero quantity, normalize the sign from the kind,
resolve `item_id` (directly or through the triple), and append one row to
the `item_stock_log` ledger. -/
def insert_stock_log (fail : LogStep → Option String) (db : DB)
    (row : StockLogInput) : (Bool × String × Option StockLogRow) × DB :=
  let movement_type := row.movement_type
  if !(allowedMovementTypes.contains movement_type) then
    ((false, "Invalid movement_type: " ++ movement_type, none), db)
  else
    match row.jumlah_barang with
    | none => ((false, "Missing jumlah_barang", none), db)
    | some qty0 =>
      if qty0 = 0 then ((false, "Quantity cannot be zero", none), db)
      else
        -- Enforce sign rules
        let qty : Int :=
          if movement_type = "out" ∨ movement_type = "transfer_out" then -|qty0|
          else if movement_type = "in_stock" ∨ movement_type = "transfer_in" then |qty0|
          else qty0
        insert_stock_log_resolve fail db row movement_type qty

/-- The all-success oracle for `insert_stock_log`. -/
def noLogFail : LogStep → Option String := fun _ => none

/-! ## Transfer operation: transfer_via_logs (src/data_integrator.py) -/

/-- `transfer_via_logs` from src/data_integrator.py: transfer stock by
writing two `item_stock_log` rows, a transfer_out at the source store and a
transfer_in at the destination store.  `failOut` and `failIn` are the store
responses seen by the first and the second `insert_stock_log` call. -/
def transfer_via_logs (failOut failIn : LogStep → Option String) (db : DB)
    (item_id : Nat) (size : String) (from_store_id to_store_id : Nat)
    (quantity : Int) : (Bool × String) × DB :=
  if quantity ≤ 0 then ((false, "Quantity must be positive"), db)
  else
    -- 1) transfer_out from source
    let r1 := insert_stock_log failOut db
      { item_id := some item_id, store_id := from_store_id,
        jumlah_barang := some quantity, movement_type := "transfer_out",
        size := some size }
    if r1.1.1 = false then
      ((false, "transfer_out failed: " ++ r1.1.2.1), r1.2)
    else
      -- 2) transfer_in to destination
      let r2 := insert_stock_log failIn r1.2
        { item_id := some item_id, store_id := to_store_id,
          jumlah_barang := some quantity, movement_type := "transfer_in",
          size := some size }
      if r2.1.1 = false then
        -- at this point the source store has already been reduced; no rollback
        ((false, "transfer_in failed after transfer_out: " ++ r2.1.2.1), r2.2)
      else ((true, "Transfer OK"), r2.2)

/-- Witness oracle: the store rejects the ledger insert with a concrete
error payload. -/
def failInsertW : LogStep → Option String :=
  fun s => if s = .logInsert then some "disk full" else none

/-! ## Stock reading: get_item_qty_stock (src/data_integrator.py) -/

/-- The store round trips of `get_item_qty_stock` that can fail. -/
inductive QtyStep where
  | itemFetch
  | stockFetch
deriving DecidableEq, Repr

/-- `get_item_qty_stock` from src/data_integrator.py: resolve the item from
the (category_id, item_name_id, color_id) triple, then read the stock
snapshot for that item + store + size; both a missing item and a missing
stock row yield quantity 0 with ok = true. -/
def get_item_qty_stock (fail : QtyStep → Option String) (db : DB)
    (category_id item_name_id color_id store_id : Nat)
    (size : String := "OS") : Bool × String × Int :=
  match fail .itemFetch with
  | some e => (false, "Fetch item failed: " ++ e, 0)
  | none =>
    -- 1) Resolve the item_id from the master table (limit 1)
    match (db.items.filter (fun it =>
        it.category_id == category_id && it.item_name_id == item_name_id &&
        it.color_id == color_id)).head? with
    | none => (true, "Item not found", 0)
    | some it =>
      match fail .stockFetch with
      | some e => (false, "Fetch stock failed: " ++ e, 0)
      | none =>
        -- 2) Read stock snapshot for that item_id + store + size (limit 1)
        match (db.item_stock.filter (fun srow =>
            srow.item_id == it.id && srow.store_id == store_id &&
            srow.size == size)).head? with
        | none => (true, "No stock found", 0)
        | some srow => (true, "Fetched", srow.quantity)

/-- The all-success oracle for `get_item_qty_stock`. -/
def noQtyFail : QtyStep → Option String := fun _ => none

/-- Witness oracle: the store fails the item fetch with a concrete error. -/
def failItemFetchW : QtyStep → Option String :=
  fun s => if s = .itemFetch then some "net down" else none

/-! ## Delivery-order builder (src/services/delivery_order_service.py,
src/domain/models.py, src/utils/formatting.py) -/

/-- Insert a dot after every three characters of a reversed digit list:
the grouping step of Python format spec `{n:,.0f}` (comma replaced by dot). -/
def groupRev : List Char → List Char
  | c1 :: c2 :: c3 :: c4 :: rest => c1 :: c2 :: c3 :: Char.ofNat 46 :: groupRev (c4 :: rest)
  | l => l

/-- `format_rupiah` from src/utils/formatting.py: integer formatted with a
dot as thousands separator. -/
def format_rupiah (n : Int) : String :=
  let ds := (toString n.natAbs).data
  (if n < 0 then "-" else "") ++ String.mk (groupRev ds.reverse).reverse

/-- One UI selection row fed to `build_delivery_order_from_rows`
(keys "SKU", "Size", "Item", "Category", "Color", "Quantity", "Unit Price");
the unit price may be missing (None). -/
structure OrderRowIn where
  sku : String
  size : String
  item : String
  category : String
  color : String
  quantity : Int
  unit_price : Option Int
deriving DecidableEq, Repr

/-- `BarcodeResult` from src/domain/models.py. -/
structure BarcodeResult where
  file_id : String
  public_url : String
deriving DecidableEq, Repr

/-- `DeliveryOrderLine` from src/domain/models.py. -/
structure DeliveryOrderLine where
  index : Nat
  label : String
  sku : String
  color : String
  size : String
  qty : Int
  unit_price : Int
  unit_price_display : String
  line_total : Int
  line_total_display : String
deriving DecidableEq, Repr

/-- `DeliveryOrder` from src/domain/models.py. -/
structure DeliveryOrder where
  outlet_name : String
  lines : List DeliveryOrderLine
  barcodes : List BarcodeResult
  grand_total : Int
deriving DecidableEq, Repr

/-- The line `build_delivery_order_from_rows` builds for the 1-based input
position `idx` and row `row`. -/
def mkDeliveryLine (idx : Nat) (row : OrderRowIn) : DeliveryOrderLine :=
  let unit_price := row.unit_price.getD 0
  let line_total := unit_price * row.quantity
  { index := idx
    label := "T005-" ++ row.category ++ "-" ++ row.item
    sku := row.sku
    color := row.color
    size := if row.size = "" then "-" else row.size
    qty := row.quantity
    unit_price := unit_price
    unit_price_display := format_rupiah unit_price
    line_total := line_total
    line_total_display := format_rupiah line_total }

/-- The loop body of `build_delivery_order_from_rows`: skip a quantity <= 0,
otherwise append the built line and add its total to the running grand
total. -/
def buildStep (acc : List DeliveryOrderLine × Int) (p : Nat × OrderRowIn) :
    List DeliveryOrderLine × Int :=
  if p.2.quantity ≤ 0 then acc
  else
    let line := mkDeliveryLine p.1 p.2
    (acc.1 ++ [line], acc.2 + line.line_total)

/-- `build_delivery_order_from_rows` from
src/services/delivery_order_service.py: enumerate the rows 1-based, filter
out quantities <= 0, build one priced line per kept row and accumulate the
grand total. -/
def build_delivery_order_from_rows (outlet_name : String)
    (order_rows : List OrderRowIn) : DeliveryOrder :=
  let folded := (List.enumFrom 1 order_rows).foldl buildStep ([], 0)
  { outlet_name := outlet_name
    lines := folded.1
    barcodes := []
    grand_total := folded.2 }

/-- Witness input: one zero-quantity row (excluded) and one priced row. -/
def rowsW : List OrderRowIn :=
  [ { sku := "SKU1", size := "M", item := "Gown", category := "DR",
      color := "Red", quantity := 0, unit_price := some 10000 },
    { sku := "SKU1", size := "L", item := "Gown", category := "DR",
      color := "Red", quantity := 3, unit_price := some 10000 } ]

/-! ## Item/price reconciler: insert_item (src/data_integrator.py) -/

/-- The store round trips of `insert_item` that can fail. -/
inductive ItemStep where
  | itemLookup
  | itemInsert
  | priceLookup
  | priceInsert
  | priceClose
  | priceInsert2
deriving DecidableEq, Repr

/-- The input row of `insert_item`: the item triple, the four cost
components and the optional created_year. -/
structure InsertItemRow where
  category_id : Nat
  item_name_id : Nat
  color_id : Nat
  harga_kain : Int
  ongkos_jahit : Int
  ongkos_transport : Int
  ongkos_packing : Int
  created_year : Option Int := none
deriving DecidableEq, Repr

/-- The result payload of `insert_item`: the failure returns that still
carry the item leave `price` and `price_changed` absent. -/
structure InsertItemResult where
  item : ItemRow
  price : Option PriceRow := none
  price_changed : Option Bool := none
deriving DecidableEq, Repr

/-- The item-lookup predicate of `insert_item`: equality on the unique
(category_id, item_name_id, color_id) triple. -/
def itemTripleMatch (row : InsertItemRow) (it : ItemRow) : Bool :=
  it.category_id == row.category_id && it.item_name_id == row.item_name_id &&
  it.color_id == row.color_id

/-- The cost components carried by the input row. -/
def rowComps (row : InsertItemRow) : PriceComponents :=
  { harga_kain := row.harga_kain
    ongkos_jahit := row.ongkos_jahit
    ongkos_transport := row.ongkos_transport
    ongkos_packing := row.ongkos_packing }

/-- Modelled from the spec: the backing store assigns each new item row its
SKU, the "stock-keeping unit identifier for one (category, item-name,
color) combination"; the generated value is opaque to the reconciler. -/
def genSku (db : DB) : String := "SKU" ++ toString db.next_item_id

/-- The open price versions for one item: the select from the
`item_price_current` view with an equality filter on item_id. -/
def openRowsFor (db : DB) (i : Nat) : List PriceRow :=
  (item_price_current db).filter (fun r => r.item_id == i)

/-- All price versions stored for one item. -/
def priceRowsFor (db : DB) (i : Nat) : List PriceRow :=
  db.price_history.filter (fun r => r.item_id == i)

/-- The item row created by `insert_item` for a fresh triple. -/
def createdItem (db : DB) (row : InsertItemRow) : ItemRow :=
  { id := db.next_item_id, category_id := row.category_id,
    item_name_id := row.item_name_id, color_id := row.color_id,
    sku := genSku db, created_year := row.created_year }

/-- The open price version inserted with id `pid` for item `i` with
components `c` (valid_to left unset by the store). -/
def newPriceRow (pid i : Nat) (c : PriceComponents) : PriceRow :=
  { id := pid, item_id := i, comps := c, harga_jual := none, valid_to := none }

/-- The update-by-id applied when closing the old version: set `valid_to`
on the row whose id is `cid`. -/
def closePriceAt (t cid : Nat) (r : PriceRow) : PriceRow :=
  if r.id == cid then { r with valid_to := some t } else r

/-- The user-facing message chosen at the end of `insert_item`. -/
def insert_item_msg (item_is_new price_changed : Bool) : String :=
  if item_is_new && price_changed then "Item baru dibuat dan harga diset."
  else if !item_is_new && price_changed then "Item sudah ada, harga diperbarui."
  else if !item_is_new && !price_changed then "Item sudah ada, harga tetap sama."
  else "Item baru dibuat."

/-- Step 2 of `insert_item`: handle pricing via `item_price_history`, given
the found-or-created item row.  The current-price lookup is the select on
`item_price_current` filtered by item_id with limit 1. -/
def insert_item_pricing (fail : ItemStep → Option String) (db : DB)
    (row : InsertItemRow) (item_row : ItemRow) (item_is_new : Bool) :
    (Bool × String × Option InsertItemResult) × DB :=
  let new_price := rowComps row
  match fail .priceLookup with
  | some e =>
      ((false, "Price lookup failed: " ++ e, some { item := item_row }), db)
  | none =>
    match (openRowsFor db item_row.id).head? with
    | none =>
      -- No price yet: insert initial price
      match fail .priceInsert with
      | some e =>
          ((false, "Insert price failed: " ++ e, some { item := item_row }), db)
      | none =>
        let price_row := newPriceRow db.next_price_id item_row.id new_price
        ((true, insert_item_msg item_is_new true,
          some { item := item_row, price := some price_row,
                 price_changed := some true }),
         { db with
            price_history := db.price_history ++ [price_row]
            next_price_id := db.next_price_id + 1 })
    | some current =>
      if current.comps == new_price then
        -- Price unchanged, just reuse current price row
        ((true, insert_item_msg item_is_new false,
          some { item := item_row, price := some current,
                 price_changed := some false }), db)
      else
        -- Close old version at the current instant
        match fail .priceClose with
        | some e =>
            ((false, "Closing old price failed: " ++ e,
              some { item := item_row }), db)
        | none =>
          let db1 := { db with
            price_history := db.price_history.map (closePriceAt db.now current.id) }
          -- Insert new version
          match fail .priceInsert2 with
          | some e =>
              ((false, "Insert new price failed: " ++ e,
                some { item := item_row }), db1)
          | none =>
            let price_row := newPriceRow db1.next_price_id item_row.id new_price
            ((true, insert_item_msg item_is_new true,
              some { item := item_row, price := some price_row,
                     price_changed := some true }),
             { db1 with
                price_history := db1.price_history ++ [price_row]
                next_price_id := db1.next_price_id + 1 })

/-- `insert_item` from src/data_integrator.py: find-or-create the item by
its unique triple, then reconcile the price version (step 2). -/
def insert_item (fail : ItemStep → Option String) (db : DB)
    (row : InsertItemRow) : (Bool × String × Option InsertItemResult) × DB :=
  match fail .itemLookup with
  | some e => ((false, "Item lookup failed: " ++ e, none), db)
  | none =>
    match (db.items.filter (itemTripleMatch row)).head? with
    | some item_row =>
        -- Item exists, reuse it
        insert_item_pricing fail db row item_row false
    | none =>
        -- Create new item
        match fail .itemInsert with
        | some e => ((false, "Insert item failed: " ++ e, none), db)
        | none =>
          let item_row := createdItem db row
          let db1 := { db with
            items := db.items ++ [item_row]
            next_item_id := db.next_item_id + 1 }
          insert_item_pricing fail db1 row item_row true

/-- The all-success oracle for `insert_item`. -/
def noItemFail : ItemStep → Option String := fun _ => none

/-- Witness oracle: the store rejects the initial price insert. -/
def failPriceInsertW : ItemStep → Option String :=
  fun s => if s = .priceInsert then some "boom" else none

/-- The item id `insert_item` resolves (or creates) for the row's triple. -/
def resolvedItemId (db : DB) (row : InsertItemRow) : Nat :=
  match (db.items.filter (itemTripleMatch row)).head? with
  | some it => it.id
  | none => db.next_item_id

/-- An empty store state, used by witness theorems for the reconciler. -/
def dbEmptyW : DB :=
  { categories := [], colors := [], item_names := [], items := []
    price_history := [], item_stock := [], item_stock_log := []
    next_item_id := 1, next_price_id := 1, next_log_id := 1, now := 7 }

/-- A first witness cost tuple. -/
def rowC1W : InsertItemRow :=
  { category_id := 1, item_name_id := 1, color_id := 1,
    harga_kain := 100, ongkos_jahit := 50, ongkos_transport := 20,
    ongkos_packing := 10, created_year := some 2024 }

/-- A second witness cost tuple for the same triple, differing in the
packing cost. -/
def rowC2W : InsertItemRow := { rowC1W with ongkos_packing := 15 }

/-! ## Master-data validators (src/Input_Data_Baru.py)

The validators work on Python strings; they are modelled on the code-point
representation (`List Nat`), on which Python case folding, `str.title`,
the regex character classes and Postgres ILIKE matching are defined. -/

/-- The code points of a string. -/
def strCodes (s : String) : List Nat := s.data.map Char.toNat

/-- ASCII lower-casing on code points (the folding applied by Python
str.lower and by ILIKE to basic latin letters). -/
def lowerCode (n : Nat) : Nat := if 65 ≤ n ∧ n ≤ 90 then n + 32 else n

/-- ASCII upper-casing on code points (Python str.upper on basic latin
letters). -/
def upperCode (n : Nat) : Nat := if 97 ≤ n ∧ n ≤ 122 then n - 32 else n

/-- Is the code point an ASCII letter. -/
def isAlphaCode (n : Nat) : Bool := (65 ≤ n && n ≤ 90) || (97 ≤ n && n ≤ 122)

/-- Is the code point an ASCII digit. -/
def isDigitCode (n : Nat) : Bool := 48 ≤ n && n ≤ 57

/-- The code points matched by the Python regex class \s (ASCII and
Unicode whitespace). -/
def isSpaceCode (n : Nat) : Bool :=
  n == 32 || n == 9 || n == 10 || n == 11 || n == 12 || n == 13 ||
  n == 28 || n == 29 || n == 30 || n == 31 || n == 133 || n == 160 ||
  n == 5760 || (8192 ≤ n && n ≤ 8202) || n == 8232 || n == 8233 ||
  n == 8239 || n == 8287 || n == 12288

/-- The character class of the category/color regex
[A-Za-z\s&#39;-]: letters, whitespace, apostrophe (39), hyphen (45). -/
def catColorClass (n : Nat) : Bool :=
  isAlphaCode n || isSpaceCode n || n == 39 || n == 45

/-- The character class of the item-name regex [A-Za-z0-9\s&#39;_-]:
additionally digits and underscore (95). -/
def itemNameClass (n : Nat) : Bool :=
  isAlphaCode n || isDigitCode n || isSpaceCode n || n == 39 ||
  n == 95 || n == 45

/-- Python str.title on code points: a letter is upper-cased when the
previous character was not a letter and lower-cased otherwise. -/
def titleCodes : Bool → List Nat → List Nat
  | _, [] => []
  | prevAlpha, n :: rest =>
    if isAlphaCode n then
      (if prevAlpha then lowerCode n else upperCode n) :: titleCodes true rest
    else n :: titleCodes false rest

/-- Python str.title of a string, on code points. -/
def pyTitle (s : String) : List Nat := titleCodes false (strCodes s)

/-- Python str.upper of a string, on code points. -/
def pyUpper (s : String) : List Nat := (strCodes s).map upperCode

/-- Postgres ILIKE matching on code points: case-insensitive; `%` (37)
matches any sequence, `_` (95) any single character, a backslash (92)
escapes the next pattern character; a pattern ending in a lone backslash
matches nothing (Postgres rejects it). -/
def ilikeCodes : List Nat → List Nat → Bool
  | [], s => s.isEmpty
  | p :: ps, s =>
    if p = 92 then
      match ps, s with
      | p2 :: ps2, c :: cs => lowerCode p2 == lowerCode c && ilikeCodes ps2 cs
      | _, _ => false
    else if p = 37 then
      ilikeCodes ps s ||
        (match s with
         | [] => false
         | _ :: cs => ilikeCodes (p :: ps) cs)
    else if p = 95 then
      match s with
      | [] => false
      | _ :: cs => ilikeCodes ps cs
    else
      match s with
      | [] => false
      | c :: cs => lowerCode p == lowerCode c && ilikeCodes ps cs
termination_by p s => (p.length, s.length)

/-- `is_exist` from src/data_integrator.py: a select with a
case-insensitive ILIKE filter on one column; true when any stored row
matches the pattern. -/
def is_exist (column : List String) (pattern_codes : List Nat) : Bool :=
  column.any (fun s => ilikeCodes pattern_codes (strCodes s))

/-- Python re.match of an anchored pattern ^C{lo,hi}$: the class
repetition must cover the whole string, or all of it but one trailing
newline (in Python, `$` also matches just before a final newline). -/
def pyMatchClassRange (cls : Nat → Bool) (lo hi : Nat) (s : String) : Bool :=
  let cs := strCodes s
  (decide (lo ≤ cs.length) && decide (cs.length ≤ hi) && cs.all cls) ||
  (match cs.getLast? with
   | some c =>
       c == 10 && (decide (lo ≤ cs.length - 1) &&
         decide (cs.length - 1 ≤ hi) && cs.dropLast.all cls)
   | none => false)

/-- `validate_category_name` from src/Input_Data_Baru.py (duplicate check
first, then emptiness, then the format regex). -/
def validate_category_name (categories : List String) (val : String) :
    Bool × String :=
  if is_exist categories (pyTitle val) then
    (false, "Kategori " ++ sq ++ val ++ sq ++ " sudah ada di database")
  else if val = "" then
    (false, "Kategori tidak boleh kosong")
  else if !(pyMatchClassRange catColorClass 2 50 val) then
    (false, "Kategori hanya boleh terdiri dari huruf, spasi, tanda hubung, atau tanda petik (2–50 karakter).")
  else (true, "")

/-- `validate_category_code` from src/Input_Data_Baru.py. -/
def validate_category_code (category_codes : List String) (val : String) :
    Bool × String :=
  if val = "" then
    (false, "Kode kategori tidak boleh kosong")
  else if !(pyMatchClassRange isAlphaCode 2 2 val) then
    (false, "Kode kategori hanya boleh terdiri dari huruf (2 karakter).")
  else if is_exist category_codes (pyUpper val) then
    (false, "Kode kategori " ++ sq ++ val ++ sq ++ " sudah ada di database")
  else (true, "")

/-- `validate_color_name` from src/Input_Data_Baru.py. -/
def validate_color_name (colors : List String) (val : String) :
    Bool × String :=
  if val = "" then
    (false, "Warna tidak boleh kosong")
  else if !(pyMatchClassRange catColorClass 2 50 val) then
    (false, "Warna hanya boleh terdiri dari huruf, spasi, tanda hubung, garis bawah, atau tanda petik (2–50 karakter).")
  else if is_exist colors (pyTitle val) then
    (false, "Warna " ++ sq ++ val ++ sq ++ " sudah ada di database")
  else (true, "")

/-- `validate_item_name` from src/Input_Data_Baru.py. -/
def validate_item_name (item_names : List String) (val : String) :
    Bool × String :=
  if val = "" then
    (false, "Item tidak boleh kosong")
  else if !(pyMatchClassRange itemNameClass 2 50 val) then
    (false, "Item hanya boleh terdiri dari huruf & angka, spasi, tanda hubung, atau tanda petik (2–50 karakter).")
  else if is_exist item_names (pyTitle val) then
    (false, "Item " ++ sq ++ val ++ sq ++ " sudah ada di database")
  else (true, "")

/-! ## Stock snapshot aggregator and order commit
(src/data_integrator.py get_items_in_stock and the submit block of
src/pages/3_Generate_Delivery_Order.py) -/

/-- A Python value held in a stock-metadata dict entry. -/
inductive PyVal where
  | str : String → PyVal
  | int : Int → PyVal
  | noneVal : PyVal
deriving DecidableEq, Repr

/-- One entry of the mapping returned by `get_items_in_stock`, with
exactly the fields the source builds (in particular: no item_id field). -/
structure StockMeta where
  item_name : Option String
  category : Option String
  color : Option String
  sku : String
  size : String
  harga_jual : Option Int
  quantity : Int
  item_name_id : Option Nat
  category_id : Option Nat
  color_id : Option Nat
deriving DecidableEq, Repr

/-- Python dict subscript on a stock-metadata entry: the keys present are
exactly the ten keys `get_items_in_stock` writes; any other key (such as
"item_id") is absent and subscripting it raises KeyError. -/
def StockMeta.dictGet (m : StockMeta) (k : String) : Option PyVal :=
  if k = "item_name" then some (match m.item_name with
    | some v => PyVal.str v
    | none => PyVal.noneVal)
  else if k = "category" then some (match m.category with
    | some v => PyVal.str v
    | none => PyVal.noneVal)
  else if k = "color" then some (match m.color with
    | some v => PyVal.str v
    | none => PyVal.noneVal)
  else if k = "sku" then some (PyVal.str m.sku)
  else if k = "size" then some (PyVal.str m.size)
  else if k = "harga_jual" then some (match m.harga_jual with
    | some v => PyVal.int v
    | none => PyVal.noneVal)
  else if k = "quantity" then some (PyVal.int m.quantity)
  else if k = "item_name_id" then some (match m.item_name_id with
    | some v => PyVal.int (v : Int)
    | none => PyVal.noneVal)
  else if k = "category_id" then some (match m.category_id with
    | some v => PyVal.int (v : Int)
    | none => PyVal.noneVal)
  else if k = "color_id" then some (match m.color_id with
    | some v => PyVal.int (v : Int)
    | none => PyVal.noneVal)
  else none

/-- result[key]["quantity"] += quantity on the association list. -/
def addQty (result : List (String × StockMeta)) (key : String) (q : Int) :
    List (String × StockMeta) :=
  result.map (fun p =>
    if p.1 = key then (p.1, { p.2 with quantity := p.2.quantity + q })
    else p)

/-- `get_items_in_stock` from src/data_integrator.py: read the
positive-quantity stock rows (optionally filtered by store), join item
metadata and the current sell price, and sum quantities grouped by the
SKU-and-size key; the insertion-ordered Python dict is an association
list. -/
def get_items_in_stock (db : DB) (store_id : Option Nat) :
    List (String × StockMeta) :=
  let stockRows := db.item_stock.filter (fun srow =>
    0 < srow.quantity &&
      (match store_id with
       | none => true
       | some sid => srow.store_id == sid))
  stockRows.foldl (fun result srow =>
    match db.items.find? (fun it => it.id == srow.item_id) with
    | none => result
    | some item =>
      let key := item.sku ++ "|" ++ srow.size
      let harga_jual := ((item_price_current db).find?
          (fun r => r.item_id == item.id)).bind (fun r => r.harga_jual)
      let item_name := (db.item_names.find?
          (fun x => x.id == item.item_name_id)).map (fun x => x.item_name)
      let category := (db.categories.find?
          (fun x => x.id == item.category_id)).map (fun x => x.category)
      let color := (db.colors.find?
          (fun x => x.id == item.color_id)).map (fun x => x.color)
      let result1 :=
        if (result.lookup key).isSome then result
        else result ++ [(key,
          { item_name := item_name, category := category, color := color,
            sku := item.sku, size := srow.size, harga_jual := harga_jual,
            quantity := 0, item_name_id := some item.item_name_id,
            category_id := some item.category_id,
            color_id := some item.color_id })]
      addQty result1 key srow.quantity) []

/-- One editable line of the delivery-order page (the session values
sku_i, size_i, qty_i; a selectbox can be unset). -/
structure CommitLine where
  sku : Option String
  size : Option String
  qty : Int
deriving DecidableEq, Repr

/-- Per-line transfer outcome collected by the page. -/
structure TransferResult where
  sku : String
  size : String
  qty : Int
  ok : Bool
  msg : String
deriving DecidableEq, Repr

/-- The (sku, size) → key map the page builds from the stock mapping. -/
def sku_size_to_key (items : List (String × StockMeta)) :
    List ((String × String) × String) :=
  items.map (fun p => ((p.2.sku, p.2.size), p.1))

/-- The commit loop of src/pages/3_Generate_Delivery_Order.py (the
`if submitted:` block): for each line with a selected SKU and size and a
positive quantity, look up the metadata entry and call `transfer_via_logs`
with `meta["item_id"]`; subscripting an absent dict key raises a KeyError
that aborts the whole block uncaught.  Returns either the per-line
transfer results and order rows or the exception, with the store state
reached. -/
def commitLoop (fail : LogStep → Option String)
    (items : List (String × StockMeta)) (warehouse_id target_id : Nat) :
    List CommitLine → DB →
      (Except String (List TransferResult × List OrderRowIn)) × DB
  | [], db => (Except.ok ([], []), db)
  | line :: rest, db =>
    match line.sku, line.size with
    | some sku, some size =>
      if sku = "" ∨ size = "" ∨ line.qty ≤ 0 then
        commitLoop fail items warehouse_id target_id rest db
      else
        match List.lookup (sku, size) (sku_size_to_key items) with
        | none => commitLoop fail items warehouse_id target_id rest db
        | some item_key =>
          match List.lookup item_key items with
          | none => (Except.error ("KeyError: " ++ sq ++ item_key ++ sq), db)
          | some meta =>
            match meta.dictGet ("item_id") with
            | none =>
                (Except.error ("KeyError: " ++ sq ++ "item_id" ++ sq), db)
            | some (PyVal.int item_id) =>
              -- the nominal path written in the page (never reached:
              -- get_items_in_stock entries carry no item_id key)
              let tr := transfer_via_logs fail fail db item_id.toNat
                meta.size warehouse_id target_id line.qty
              let res : TransferResult :=
                { sku := meta.sku, size := meta.size, qty := line.qty,
                  ok := tr.1.1, msg := tr.1.2 }
              let orow : OrderRowIn :=
                { sku := meta.sku, size := meta.size,
                  item := meta.item_name.getD "",
                  category := meta.category.getD "",
                  color := meta.color.getD "", quantity := line.qty,
                  unit_price := meta.harga_jual }
              match commitLoop fail items warehouse_id target_id rest tr.2 with
              | (Except.error e, db2) => (Except.error e, db2)
              | (Except.ok (trs, rows), db2) =>
                  (Except.ok (res :: trs, orow :: rows), db2)
            | some _ => (Except.error ("TypeError: item_id"), db)
    | _, _ => commitLoop fail items warehouse_id target_id rest db

/-- Store state for the order-commit analysis: one registered item with
positive stock at the warehouse (store 4). -/
def db4 : DB :=
  { categories := [{ id := 1, category := "Dress", code := "DR" }]
    colors := [{ id := 1, color := "Red" }]
    item_names := [{ id := 1, item_name := "Gown" }]
    items := [{ id := 1, category_id := 1, item_name_id := 1, color_id := 1,
                sku := "SKU1", created_year := none }]
    price_history := [{ id := 1
                        item_id := 1
                        comps := { harga_kain := 100
                                   ongkos_jahit := 50
                                   ongkos_transport := 20
                                   ongkos_packing := 10 }
                        harga_jual := some 200
                        valid_to := none }]
    item_stock := [{ item_id := 1, store_id := 4, size := "OS", quantity := 3 }]
    item_stock_log := []
    next_item_id := 2, next_price_id := 2, next_log_id := 1, now := 0 }

/-- Case-insensitive equality of code-point strings. -/
def lowerEq (a b : List Nat) : Prop := a.map lowerCode = b.map lowerCode

/-- No stored value is a case-insensitive duplicate of the candidate. -/
def NoCaseDup (stored : List String) (val : String) : Prop :=
  ∀ s ∈ stored, ¬ lowerEq (strCodes val) (strCodes s)

/-- The format accepted by the Python regex ^C{lo,hi}$ with re.match:
between lo and hi characters of the class, optionally followed by one
extra trailing newline. -/
def FormatOk (cls : Nat → Bool) (lo hi : Nat) (val : String) : Prop :=
  (lo ≤ (strCodes val).length ∧ (strCodes val).length ≤ hi ∧
    (∀ n ∈ strCodes val, cls n = true)) ∨
  ((strCodes val).getLast? = some 10 ∧
    lo ≤ (strCodes val).length - 1 ∧ (strCodes val).length - 1 ≤ hi ∧
    (∀ n ∈ (strCodes val).dropLast, cls n = true))

/-- A concrete sample store state (one registered item), used by the witness
theorems to instantiate the general statements. -/
def dbW : DB :=
  { categories := [{ id := 1, category := "Dress", code := "DR" }]
    colors := [{ id := 1, color := "Red" }]
    item_names := [{ id := 1, item_name := "Gown" }]
    items := [{ id := 1, category_id := 1, item_name_id := 1, color_id := 1,
                sku := "SKU1", created_year := none }]
    price_history := []
    item_stock := []
    item_stock_log := []
    next_item_id := 2
    next_price_id := 0
    next_log_id := 0
    now := 0 }

/-- Witness input: a stock-in movement row without a size key. -/
def rowNoSizeW : StockLogInput :=
  { item_id := some 1, store_id := 1, jumlah_barang := some 5,
    movement_type := "in_stock" }

/-- Witness input: the same movement row with an explicit size. -/
def rowSizeMW : StockLogInput := { rowNoSizeW with size := some "M" }

/-- The ledger row `insert_stock_log` writes for `rowNoSizeW` on `dbW`. -/
def logRowOSW : StockLogRow :=
  { id := 0, item_id := 1, store_id := 1, size := "OS",
    movement_type := "in_stock", quantity := 5 }

/-- The ledger row `insert_stock_log` writes for `rowSizeMW` on `dbW`. -/
def logRowMW : StockLogRow := { logRowOSW with size := "M" }

end Kalyn

namespace Kalyn

/-! ## Theorems -/

/-- Any row produced by `insert_stock_log_write` carries exactly the
sign-normalized quantity it was given and the defaulted size. -/
theorem write_result_fields (fail : LogStep → Option String) (db : DB)
    (row : StockLogInput) (movement_type : String) (qty : Int) (item_id : Nat)
    (r : StockLogRow)
    (h : (insert_stock_log_write fail db row movement_type qty item_id).1.2.2 = some r) :
    r.quantity = qty ∧ r.size = row.size.getD "OS" := by
  unfold insert_stock_log_write at h
  cases hf : fail .logInsert <;> simp [hf] at h
  rw [← h]
  exact ⟨rfl, rfl⟩

/-- Any row produced by `insert_stock_log_resolve` carries exactly the
sign-normalized quantity it was given and the defaulted size. -/
theorem resolve_result_fields (fail : LogStep → Option String) (db : DB)
    (row : StockLogInput) (movement_type : String) (qty : Int) (r : StockLogRow)
    (h : (insert_stock_log_resolve fail db row movement_type qty).1.2.2 = some r) :
    r.quantity = qty ∧ r.size = row.size.getD "OS" := by
  unfold insert_stock_log_resolve at h
  split at h
  · exact write_result_fields _ _ _ _ _ _ _ h
  · split at h
    · simp at h
    · split at h
      · simp at h
      · split at h
        · simp at h
        · split at h
          · simp at h
          · split at h
            · simp at h
            · exact write_result_fields _ _ _ _ _ _ _ h

/-- Any row produced by `insert_stock_log` went through the write step:
it carries the defaulted size. -/
theorem insert_stock_log_result_size (fail : LogStep → Option String) (db : DB)
    (row : StockLogInput) (r : StockLogRow)
    (h : (insert_stock_log fail db row).1.2.2 = some r) :
    r.size = row.size.getD "OS" := by
  by_cases hallow : allowedMovementTypes.contains row.movement_type = true
  · cases hj : row.jumlah_barang with
    | none =>
      simp only [insert_stock_log, hallow, Bool.not_true, hj] at h
      simp at h
    | some q =>
      by_cases hz : q = 0
      · simp only [insert_stock_log, hallow, Bool.not_true, hj, hz] at h
        simp at h
      · simp only [insert_stock_log, hallow, Bool.not_true, hj, hz, if_false] at h
        exact (resolve_result_fields _ _ _ _ _ _ h).2
  · have hmem : row.movement_type ∉ allowedMovementTypes := by
      simpa using hallow
    simp [insert_stock_log, hmem] at h

/-- C2: for every call to `insert_stock_log`, a movement kind outside the five
allowed kinds is rejected (state untouched); a quantity of 0 is rejected
regardless of kind (state untouched); and whenever a movement row is produced,
its stored quantity is the negative magnitude for out/transfer_out, the
positive magnitude for in_stock/transfer_in, and exactly the caller-supplied
signed value for adjustment. -/
theorem insert_stock_log_validation_and_sign (fail : LogStep → Option String)
    (db : DB) (row : StockLogInput) :
    (¬ allowedMovementTypes.contains row.movement_type = true →
      insert_stock_log fail db row =
        ((false, "Invalid movement_type: " ++ row.movement_type, none), db)) ∧
    (row.jumlah_barang = some 0 →
      (insert_stock_log fail db row).1.1 = false ∧
      (insert_stock_log fail db row).2 = db) ∧
    (∀ q r, row.jumlah_barang = some q →
      (insert_stock_log fail db row).1.2.2 = some r →
      ((row.movement_type = "out" ∨ row.movement_type = "transfer_out") →
        r.quantity = -|q|) ∧
      ((row.movement_type = "in_stock" ∨ row.movement_type = "transfer_in") →
        r.quantity = |q|) ∧
      (row.movement_type = "adjustment" → r.quantity = q)) := by
  refine ⟨?_, ?_, ?_⟩
  · intro hbad
    have hmem : row.movement_type ∉ allowedMovementTypes := by
      simpa using hbad
    simp [insert_stock_log, hmem]
  · intro h0
    by_cases hallow : allowedMovementTypes.contains row.movement_type = true
    · constructor <;>
        · simp only [insert_stock_log, hallow, Bool.not_true, h0]
          simp
    · have hmem : row.movement_type ∉ allowedMovementTypes := by
        simpa using hallow
      constructor <;> simp [insert_stock_log, hmem]
  · intro q r hq hr
    by_cases hallow : allowedMovementTypes.contains row.movement_type = true
    · simp only [insert_stock_log, hallow, Bool.not_true, hq] at hr
      by_cases hz : q = 0
      · simp [hz] at hr
      · simp only [hz, if_false] at hr
        have hqr := (resolve_result_fields _ _ _ _ _ _ hr).1
        refine ⟨?_, ?_, ?_⟩ <;> intro hmt
        · rwa [if_pos hmt] at hqr
        · have hne : ¬ (row.movement_type = "out" ∨ row.movement_type = "transfer_out") := by
            rcases hmt with h | h <;> simp [h]
          rwa [if_neg hne, if_pos hmt] at hqr
        · have hne1 : ¬ (row.movement_type = "out" ∨ row.movement_type = "transfer_out") := by
            simp [hmt]
          have hne2 : ¬ (row.movement_type = "in_stock" ∨ row.movement_type = "transfer_in") := by
            simp [hmt]
          rwa [if_neg hne1, if_neg hne2] at hqr
    · have hmem : row.movement_type ∉ allowedMovementTypes := by
        simpa using hallow
      simp [insert_stock_log, hmem] at hr

/-- Witness for C2: a concrete rejected kind, a concrete rejected zero
quantity, and a concrete transfer_out movement stored with negative
magnitude, all obtained through the general theorem. -/
theorem insert_stock_log_validation_and_sign_witness :
    (insert_stock_log noLogFail dbW
        { item_id := some 1, store_id := 1, jumlah_barang := some 5,
          movement_type := "bogus" }).1.1 = false ∧
    (insert_stock_log noLogFail dbW
        { item_id := some 1, store_id := 1, jumlah_barang := some 0,
          movement_type := "out" }).1.1 = false ∧
    ({ id := 0, item_id := 1, store_id := 1, size := "OS",
       movement_type := "transfer_out", quantity := -5 } : StockLogRow).quantity
      = -|(-5 : Int)| := by
  refine ⟨?_, ?_, ?_⟩
  · have h := (insert_stock_log_validation_and_sign noLogFail dbW
      { item_id := some 1, store_id := 1, jumlah_barang := some 5,
        movement_type := "bogus" }).1 (by decide)
    rw [h]
  · exact ((insert_stock_log_validation_and_sign noLogFail dbW
      { item_id := some 1, store_id := 1, jumlah_barang := some 0,
        movement_type := "out" }).2.1 rfl).1
  · exact ((insert_stock_log_validation_and_sign noLogFail dbW
      { item_id := some 1, store_id := 1, jumlah_barang := some (-5),
        movement_type := "transfer_out" }).2.2 (-5)
      { id := 0, item_id := 1, store_id := 1, size := "OS",
        movement_type := "transfer_out", quantity := -5 } rfl (by decide)).1
      (Or.inr rfl)

/-- C10: for every call to `insert_stock_log` whose input row omits the size
field, the recorded movement has size defaulted to "OS"; when a size is
supplied it is stored verbatim. -/
theorem insert_stock_log_size_defaulting (fail : LogStep → Option String)
    (db : DB) (row : StockLogInput) (r : StockLogRow)
    (h : (insert_stock_log fail db row).1.2.2 = some r) :
    (row.size = none → r.size = "OS") ∧ (∀ s, row.size = some s → r.size = s) := by
  have hs := insert_stock_log_result_size fail db row r h
  constructor
  · intro hnone
    rw [hs, hnone]
    rfl
  · intro s hsome
    rw [hs, hsome]
    rfl

/-- Witness for C10: an input without a size is stored with size "OS", one
with size "M" keeps it. -/
theorem insert_stock_log_size_defaulting_witness :
    ((insert_stock_log noLogFail dbW rowNoSizeW).1.2.2.map (fun r => r.size))
      = some "OS" ∧
    ((insert_stock_log noLogFail dbW rowSizeMW).1.2.2.map (fun r => r.size))
      = some "M" := by
  constructor
  · have e1 : (insert_stock_log noLogFail dbW rowNoSizeW).1.2.2 = some logRowOSW := by
      decide
    have h := (insert_stock_log_size_defaulting noLogFail dbW rowNoSizeW
      logRowOSW e1).1 rfl
    rw [e1]
    simpa using h
  · have e2 : (insert_stock_log noLogFail dbW rowSizeMW).1.2.2 = some logRowMW := by
      decide
    have h := (insert_stock_log_size_defaulting noLogFail dbW rowSizeMW
      logRowMW e2).2 "M" rfl
    rw [e2]
    simpa using h

/-- C3: transfer contract.  A non-positive quantity is rejected with no
write; a positive quantity writes a transfer_out of magnitude q at the
source store and then a transfer_in of magnitude q at the destination store
for the same item and size; and when the transfer_in insert fails after the
transfer_out succeeded, the call reports failure while the transfer_out row
stays in the ledger (no rollback). -/
theorem transfer_via_logs_contract (failOut failIn : LogStep → Option String)
    (db : DB) (item_id : Nat) (size : String) (from_store_id to_store_id : Nat)
    (q : Int) :
    (q ≤ 0 →
      transfer_via_logs failOut failIn db item_id size from_store_id to_store_id q
        = ((false, "Quantity must be positive"), db)) ∧
    (0 < q →
      transfer_via_logs noLogFail noLogFail db item_id size from_store_id to_store_id q
        = ((true, "Transfer OK"),
           { db with
              item_stock_log := db.item_stock_log ++
                [ { id := db.next_log_id, item_id := item_id,
                    store_id := from_store_id, size := size,
                    movement_type := "transfer_out", quantity := -q },
                  { id := db.next_log_id + 1, item_id := item_id,
                    store_id := to_store_id, size := size,
                    movement_type := "transfer_in", quantity := q } ]
              next_log_id := db.next_log_id + 2 })) ∧
    (∀ e, 0 < q → failIn .logInsert = some e →
      transfer_via_logs noLogFail failIn db item_id size from_store_id to_store_id q
        = ((false, "transfer_in failed after transfer_out: Insert stock log failed: " ++ e),
           { db with
              item_stock_log := db.item_stock_log ++
                [ { id := db.next_log_id, item_id := item_id,
                    store_id := from_store_id, size := size,
                    movement_type := "transfer_out", quantity := -q } ]
              next_log_id := db.next_log_id + 1 })) := by
  refine ⟨?_, ?_, ?_⟩
  · intro h
    simp [transfer_via_logs, h]
  · intro hq
    have hne : ¬ q ≤ 0 := not_le.mpr hq
    have hnz : ¬ q = 0 := ne_of_gt hq
    have habs : |q| = q := abs_of_pos hq
    simp [transfer_via_logs, insert_stock_log, insert_stock_log_resolve,
      insert_stock_log_write, noLogFail, allowedMovementTypes, hne, hnz, habs]
  · intro e hq hfail
    have hne : ¬ q ≤ 0 := not_le.mpr hq
    have hnz : ¬ q = 0 := ne_of_gt hq
    have habs : |q| = q := abs_of_pos hq
    simp [transfer_via_logs, insert_stock_log, insert_stock_log_resolve,
      insert_stock_log_write, noLogFail, allowedMovementTypes, hne, hnz, habs, hfail]
    rw [← String.append_assoc]
    congr 1

/-- Witness for C3: a rejected zero-quantity transfer, a successful
5-unit transfer, and a partial failure with exactly the transfer_out row
left behind, all on the concrete store state dbW. -/
theorem transfer_via_logs_contract_witness :
    transfer_via_logs noLogFail noLogFail dbW 1 "OS" 4 1 0
      = ((false, "Quantity must be positive"), dbW) ∧
    (transfer_via_logs noLogFail noLogFail dbW 1 "OS" 4 1 5).1
      = (true, "Transfer OK") ∧
    (transfer_via_logs noLogFail failInsertW dbW 1 "OS" 4 1 5).2.item_stock_log
      = [ { id := 0, item_id := 1, store_id := 4, size := "OS",
            movement_type := "transfer_out", quantity := -5 } ] := by
  refine ⟨?_, ?_, ?_⟩
  · exact (transfer_via_logs_contract noLogFail noLogFail dbW 1 "OS" 4 1 0).1
      (by norm_num)
  · rw [(transfer_via_logs_contract noLogFail noLogFail dbW 1 "OS" 4 1 5).2.1
      (by norm_num)]
  · rw [(transfer_via_logs_contract noLogFail failInsertW dbW 1 "OS" 4 1 5).2.2
      "disk full" (by norm_num) rfl]
    decide

/-- C7: when the item resolves but no stock row exists for the requested
(item, store, size) combination, `get_item_qty_stock` returns quantity 0
with a success indicator rather than an error. -/
theorem get_item_qty_stock_absent_is_zero (db : DB)
    (category_id item_name_id color_id store_id : Nat) (size : String)
    (it : ItemRow)
    (hit : (db.items.filter (fun i =>
        i.category_id == category_id && i.item_name_id == item_name_id &&
        i.color_id == color_id)).head? = some it)
    (hstock : (db.item_stock.filter (fun srow =>
        srow.item_id == it.id && srow.store_id == store_id &&
        srow.size == size)).head? = none) :
    get_item_qty_stock noQtyFail db category_id item_name_id color_id
        store_id size = (true, "No stock found", 0) := by
  simp only [get_item_qty_stock, noQtyFail, hit, hstock]

/-- Witness for C7: on dbW (registered item, empty stock table) the read
returns ok = true with quantity 0. -/
theorem get_item_qty_stock_absent_is_zero_witness :
    get_item_qty_stock noQtyFail dbW 1 1 1 1 "OS"
      = (true, "No stock found", 0) := by
  exact get_item_qty_stock_absent_is_zero dbW 1 1 1 1 "OS"
    { id := 1, category_id := 1, item_name_id := 1, color_id := 1,
      sku := "SKU1", created_year := none }
    (by decide) (by decide)

/-- C9: when the triple resolves to no item, `get_item_qty_stock` returns
ok = true with quantity 0 and the message "Item not found"; only failures
of the two store calls produce ok = false. -/
theorem get_item_qty_stock_item_not_found (db : DB)
    (category_id item_name_id color_id store_id : Nat) (size : String) :
    ((db.items.filter (fun i =>
        i.category_id == category_id && i.item_name_id == item_name_id &&
        i.color_id == color_id)).head? = none →
      get_item_qty_stock noQtyFail db category_id item_name_id color_id
          store_id size = (true, "Item not found", 0)) ∧
    (∀ fail : QtyStep → Option String,
      (get_item_qty_stock fail db category_id item_name_id color_id
          store_id size).1 = false →
      fail .itemFetch ≠ none ∨ fail .stockFetch ≠ none) := by
  constructor
  · intro hit
    simp only [get_item_qty_stock, noQtyFail, hit]
  · intro fail hfalse
    by_cases h1 : fail .itemFetch = none
    · right
      intro h2
      simp only [get_item_qty_stock, h1, h2] at hfalse
      split at hfalse
      · simp at hfalse
      · split at hfalse
        · simp at hfalse
        · simp at hfalse
    · left
      exact h1

/-- Witness for C9: an unknown triple on dbW yields (true, "Item not found",
0), and the only way to get ok = false at that input is a store failure. -/
theorem get_item_qty_stock_item_not_found_witness :
    get_item_qty_stock noQtyFail dbW 9 9 9 1 "OS"
      = (true, "Item not found", 0) ∧
    (failItemFetchW .itemFetch ≠ none ∨ failItemFetchW .stockFetch ≠ none) := by
  constructor
  · exact (get_item_qty_stock_item_not_found dbW 9 9 9 1 "OS").1 (by decide)
  · exact (get_item_qty_stock_item_not_found dbW 1 1 1 1 "OS").2
      failItemFetchW (by decide)

/-- The delivery-order fold produces exactly the filtered, mapped lines and
the sum of their totals, for any accumulator. -/
theorem foldl_buildStep (l : List (Nat × OrderRowIn))
    (acc : List DeliveryOrderLine × Int) :
    l.foldl buildStep acc
      = (acc.1 ++ (l.filter (fun p => 0 < p.2.quantity)).map
            (fun p => mkDeliveryLine p.1 p.2),
         acc.2 + ((l.filter (fun p => 0 < p.2.quantity)).map
            (fun p => (mkDeliveryLine p.1 p.2).line_total)).sum) := by
  induction l generalizing acc with
  | nil => simp
  | cons p rest ih =>
    simp only [List.foldl_cons, List.filter_cons]
    by_cases h : 0 < p.2.quantity
    · have h2 : ¬ p.2.quantity ≤ 0 := not_le.mpr h
      rw [ih]
      simp [buildStep, h, h2, add_assoc]
    · have h2 : p.2.quantity ≤ 0 := not_lt.mp h
      rw [ih]
      simp [buildStep, h, h2]

/-- C6: `build_delivery_order_from_rows` keeps exactly the rows with
positive quantity (1-based-indexed, in order), every produced line's total
is its unit price times its quantity in exact integer arithmetic, and the
grand total is the sum of the line totals of the included lines. -/
theorem build_delivery_order_totals (outlet_name : String)
    (rows : List OrderRowIn) :
    (build_delivery_order_from_rows outlet_name rows).lines
      = ((List.enumFrom 1 rows).filter (fun p => 0 < p.2.quantity)).map
          (fun p => mkDeliveryLine p.1 p.2) ∧
    (∀ l ∈ (build_delivery_order_from_rows outlet_name rows).lines,
        l.line_total = l.unit_price * l.qty) ∧
    (build_delivery_order_from_rows outlet_name rows).grand_total
      = ((build_delivery_order_from_rows outlet_name rows).lines.map
          (fun l => l.line_total)).sum := by
  have hfold := foldl_buildStep (List.enumFrom 1 rows) ([], 0)
  refine ⟨?_, ?_, ?_⟩
  · simp [build_delivery_order_from_rows, hfold]
  · intro l hl
    simp only [build_delivery_order_from_rows, hfold] at hl
    simp only [List.nil_append, List.mem_map] at hl
    obtain ⟨p, hp, hpl⟩ := hl
    rw [← hpl]
    simp [mkDeliveryLine]
  · simp [build_delivery_order_from_rows, hfold, List.map_map]
    rfl

/-- Witness for C6: on the concrete rows rowsW the zero-quantity row is
dropped and the grand total is 3 x 10000. -/
theorem build_delivery_order_totals_witness :
    (build_delivery_order_from_rows ("Banda") rowsW).lines.length = 1 ∧
    (build_delivery_order_from_rows ("Banda") rowsW).grand_total = 30000 := by
  have h := build_delivery_order_totals ("Banda") rowsW
  constructor
  · rw [h.1]
    decide
  · rw [h.2.2]
    rw [h.1]
    decide

/-- The open rows for an item are the open subset of its price rows. -/
theorem openRowsFor_eq_filter (db : DB) (i : Nat) :
    openRowsFor db i
      = (priceRowsFor db i).filter (fun r => r.valid_to == none) := by
  simp only [openRowsFor, priceRowsFor, item_price_current, List.filter_filter]
  congr 1
  funext r
  exact Bool.and_comm _ _

/-- Branch computation: fresh triple with no open version under the id to
be created: the item is created and a first open price version inserted. -/
theorem insert_item_fresh (db : DB) (row : InsertItemRow)
    (hfind : (db.items.filter (itemTripleMatch row)).head? = none)
    (hopen : openRowsFor db db.next_item_id = []) :
    insert_item noItemFail db row
      = ((true, "Item baru dibuat dan harga diset.",
          some { item := createdItem db row,
                 price := some (newPriceRow db.next_price_id db.next_item_id
                   (rowComps row)),
                 price_changed := some true }),
         { db with
            items := db.items ++ [createdItem db row]
            next_item_id := db.next_item_id + 1
            price_history := db.price_history
              ++ [newPriceRow db.next_price_id db.next_item_id (rowComps row)]
            next_price_id := db.next_price_id + 1 }) := by
  have hopen1 : (openRowsFor
      { db with items := db.items ++ [createdItem db row],
                next_item_id := db.next_item_id + 1 }
      (createdItem db row).id).head? = none := by
    have he : openRowsFor
        { db with items := db.items ++ [createdItem db row],
                  next_item_id := db.next_item_id + 1 }
        (createdItem db row).id = openRowsFor db db.next_item_id := rfl
    rw [he, hopen]
    rfl
  simp only [insert_item, noItemFail, hfind, insert_item_pricing, hopen1]
  simp [insert_item_msg, createdItem]

/-- Branch computation: the item exists but has no open price version: a
first open version is inserted for it. -/
theorem insert_item_existing_noprice (db : DB) (row : InsertItemRow)
    (it : ItemRow)
    (hfind : (db.items.filter (itemTripleMatch row)).head? = some it)
    (hopen : openRowsFor db it.id = []) :
    insert_item noItemFail db row
      = ((true, "Item sudah ada, harga diperbarui.",
          some { item := it,
                 price := some (newPriceRow db.next_price_id it.id (rowComps row)),
                 price_changed := some true }),
         { db with
            price_history := db.price_history
              ++ [newPriceRow db.next_price_id it.id (rowComps row)]
            next_price_id := db.next_price_id + 1 }) := by
  have hopen1 : (openRowsFor db it.id).head? = none := by
    rw [hopen]
    rfl
  simp only [insert_item, noItemFail, hfind, insert_item_pricing, hopen1]
  simp [insert_item_msg]

/-- Branch computation: the open version has the same four components: it
is reused and the store state is unchanged. -/
theorem insert_item_same_price (db : DB) (row : InsertItemRow)
    (it : ItemRow) (cur : PriceRow)
    (hfind : (db.items.filter (itemTripleMatch row)).head? = some it)
    (hopen : openRowsFor db it.id = [cur])
    (hsame : cur.comps = rowComps row) :
    insert_item noItemFail db row
      = ((true, "Item sudah ada, harga tetap sama.",
          some { item := it, price := some cur, price_changed := some false }),
         db) := by
  have hopen1 : (openRowsFor db it.id).head? = some cur := by
    rw [hopen]
    rfl
  simp only [insert_item, noItemFail, hfind, insert_item_pricing, hopen1]
  simp [hsame, insert_item_msg]

/-- Branch computation: the open version differs in some component: it is
closed at the current instant and a new open version is inserted. -/
theorem insert_item_diff_price (db : DB) (row : InsertItemRow)
    (it : ItemRow) (cur : PriceRow)
    (hfind : (db.items.filter (itemTripleMatch row)).head? = some it)
    (hopen : openRowsFor db it.id = [cur])
    (hdiff : cur.comps ≠ rowComps row) :
    insert_item noItemFail db row
      = ((true, "Item sudah ada, harga diperbarui.",
          some { item := it,
                 price := some (newPriceRow db.next_price_id it.id (rowComps row)),
                 price_changed := some true }),
         { db with
            price_history := db.price_history.map (closePriceAt db.now cur.id)
              ++ [newPriceRow db.next_price_id it.id (rowComps row)]
            next_price_id := db.next_price_id + 1 }) := by
  have hopen1 : (openRowsFor db it.id).head? = some cur := by
    rw [hopen]
    rfl
  have hbeq : (cur.comps == rowComps row) = false := by
    simpa using hdiff
  simp only [insert_item, noItemFail, hfind, insert_item_pricing, hopen1, hbeq]
  simp [insert_item_msg]

/-- C5: when the item row is created but the subsequent price insert fails,
`insert_item` reports the degraded case: the failure message of the price
step, a payload carrying the created item with the price unset, and the
created item row left in place (price history untouched). -/
theorem insert_item_partial_write_degraded (db : DB) (row : InsertItemRow)
    (hfind : (db.items.filter (itemTripleMatch row)).head? = none)
    (hopen : openRowsFor db db.next_item_id = []) :
    insert_item failPriceInsertW db row
      = ((false, "Insert price failed: boom",
          some { item := createdItem db row, price := none,
                 price_changed := none }),
         { db with
            items := db.items ++ [createdItem db row]
            next_item_id := db.next_item_id + 1 }) ∧
    createdItem db row ∈ (insert_item failPriceInsertW db row).2.items ∧
    (insert_item failPriceInsertW db row).2.price_history
      = db.price_history := by
  have hopen1 : (openRowsFor
      { db with items := db.items ++ [createdItem db row],
                next_item_id := db.next_item_id + 1 }
      (createdItem db row).id).head? = none := by
    have he : openRowsFor
        { db with items := db.items ++ [createdItem db row],
                  next_item_id := db.next_item_id + 1 }
        (createdItem db row).id = openRowsFor db db.next_item_id := rfl
    rw [he, hopen]
    rfl
  have hmain : insert_item failPriceInsertW db row
      = ((false, "Insert price failed: boom",
          some { item := createdItem db row, price := none,
                 price_changed := none }),
         { db with
            items := db.items ++ [createdItem db row]
            next_item_id := db.next_item_id + 1 }) := by
    simp only [insert_item, failPriceInsertW, hfind, insert_item_pricing, hopen1]
    simp
  refine ⟨hmain, ?_, ?_⟩
  · rw [hmain]
    simp
  · rw [hmain]

/-- Witness for C5: on the empty store the degraded partial write is
observed concretely. -/
theorem insert_item_partial_write_degraded_witness :
    (insert_item failPriceInsertW dbEmptyW rowC1W).1.1 = false ∧
    (insert_item failPriceInsertW dbEmptyW rowC1W).1.2.2
      = some { item := createdItem dbEmptyW rowC1W, price := none,
               price_changed := none } ∧
    createdItem dbEmptyW rowC1W
      ∈ (insert_item failPriceInsertW dbEmptyW rowC1W).2.items := by
  have h := insert_item_partial_write_degraded dbEmptyW rowC1W
    (by decide) (by decide)
  refine ⟨?_, ?_, h.2.1⟩ <;> rw [h.1]

/-- Closing a price version never changes which item it belongs to. -/
theorem closePriceAt_item_id (t cid : Nat) (r : PriceRow) :
    (closePriceAt t cid r).item_id = r.item_id := by
  simp only [closePriceAt]
  split <;> rfl

/-- Closing a price version never changes its id. -/
theorem closePriceAt_id (t cid : Nat) (r : PriceRow) :
    (closePriceAt t cid r).id = r.id := by
  simp only [closePriceAt]
  split <;> rfl

/-- Open rows of a store whose price history gained one appended row. -/
theorem openRowsFor_append (db db' : DB) (r : PriceRow) (i : Nat)
    (h : db'.price_history = db.price_history ++ [r]) :
    openRowsFor db' i = openRowsFor db i
      ++ (if r.valid_to == none && r.item_id == i then [r] else []) := by
  simp only [openRowsFor, item_price_current, h, List.filter_append]
  congr 1
  by_cases h1 : r.valid_to = none <;> by_cases h2 : r.item_id = i <;>
    simp [h1, h2]

/-- Price rows of a store whose price history gained one appended row. -/
theorem priceRowsFor_append (db db' : DB) (r : PriceRow) (i : Nat)
    (h : db'.price_history = db.price_history ++ [r]) :
    priceRowsFor db' i = priceRowsFor db i
      ++ (if r.item_id == i then [r] else []) := by
  simp only [priceRowsFor, h, List.filter_append]
  congr 1
  by_cases h2 : r.item_id = i <;> simp [h2]

/-- C1: price reconciliation versioning.  (A) with no open version for the
resolved item, a first open version is inserted and price_changed = true;
(B) with an open version whose four components equal the given ones, that
version is reused unchanged, price_changed = false, store untouched;
(C) with a differing open version, the old version is closed by setting
valid_to = now and a new open version is inserted, price_changed = true;
(D) reconciling twice in sequence with identical inputs adds no version the
second time and reports price_changed = false; (E) reconciling a fresh item
with components c1 then c2 with c2 ≠ c1 yields exactly two versions for the
item, the first closed and the second open. -/
theorem insert_item_price_versioning (db : DB) (row : InsertItemRow) :
    (openRowsFor db (resolvedItemId db row) = [] →
      (insert_item noItemFail db row).1.1 = true ∧
      (insert_item noItemFail db row).1.2.2.map (fun r => r.price_changed)
        = some (some true) ∧
      openRowsFor (insert_item noItemFail db row).2 (resolvedItemId db row)
        = [newPriceRow db.next_price_id (resolvedItemId db row) (rowComps row)] ∧
      priceRowsFor (insert_item noItemFail db row).2 (resolvedItemId db row)
        = priceRowsFor db (resolvedItemId db row)
          ++ [newPriceRow db.next_price_id (resolvedItemId db row) (rowComps row)]) ∧
    (∀ it cur, (db.items.filter (itemTripleMatch row)).head? = some it →
      openRowsFor db it.id = [cur] → cur.comps = rowComps row →
      insert_item noItemFail db row
        = ((true, "Item sudah ada, harga tetap sama.",
            some { item := it, price := some cur, price_changed := some false }),
           db)) ∧
    (∀ it cur, (db.items.filter (itemTripleMatch row)).head? = some it →
      openRowsFor db it.id = [cur] → cur.comps ≠ rowComps row →
      insert_item noItemFail db row
        = ((true, "Item sudah ada, harga diperbarui.",
            some { item := it,
                   price := some (newPriceRow db.next_price_id it.id (rowComps row)),
                   price_changed := some true }),
           { db with
              price_history := db.price_history.map (closePriceAt db.now cur.id)
                ++ [newPriceRow db.next_price_id it.id (rowComps row)]
              next_price_id := db.next_price_id + 1 })) ∧
    ((db.items.filter (itemTripleMatch row)).head? = none →
      priceRowsFor db db.next_item_id = [] →
      (insert_item noItemFail (insert_item noItemFail db row).2 row).1.2.2.map
          (fun r => r.price_changed) = some (some false) ∧
      (insert_item noItemFail (insert_item noItemFail db row).2 row).2
        = (insert_item noItemFail db row).2) ∧
    (∀ row2 : InsertItemRow,
      row2.category_id = row.category_id →
      row2.item_name_id = row.item_name_id →
      row2.color_id = row.color_id →
      rowComps row2 ≠ rowComps row →
      (db.items.filter (itemTripleMatch row)).head? = none →
      priceRowsFor db db.next_item_id = [] →
      priceRowsFor
          (insert_item noItemFail (insert_item noItemFail db row).2 row2).2
          db.next_item_id
        = [ { id := db.next_price_id, item_id := db.next_item_id,
              comps := rowComps row, harga_jual := none,
              valid_to := some db.now },
            newPriceRow (db.next_price_id + 1) db.next_item_id
              (rowComps row2) ]) := by
  refine ⟨?_, ?_, ?_, ?_, ?_⟩
  · -- (A)
    intro hopen
    rcases hfind : (db.items.filter (itemTripleMatch row)).head? with _ | it
    · have hrid : resolvedItemId db row = db.next_item_id := by
        simp [resolvedItemId, hfind]
      rw [hrid] at hopen ⊢
      have h := insert_item_fresh db row hfind hopen
      rw [h]
      refine ⟨rfl, rfl, ?_, ?_⟩
      · rw [openRowsFor_append db _
          (newPriceRow db.next_price_id db.next_item_id (rowComps row))
          db.next_item_id rfl, hopen]
        simp [newPriceRow]
      · rw [priceRowsFor_append db _
          (newPriceRow db.next_price_id db.next_item_id (rowComps row))
          db.next_item_id rfl]
        simp [newPriceRow]
    · have hrid : resolvedItemId db row = it.id := by
        simp [resolvedItemId, hfind]
      rw [hrid] at hopen ⊢
      have h := insert_item_existing_noprice db row it hfind hopen
      rw [h]
      refine ⟨rfl, rfl, ?_, ?_⟩
      · rw [openRowsFor_append db _
          (newPriceRow db.next_price_id it.id (rowComps row)) it.id rfl, hopen]
        simp [newPriceRow]
      · rw [priceRowsFor_append db _
          (newPriceRow db.next_price_id it.id (rowComps row)) it.id rfl]
        simp [newPriceRow]
  · -- (B)
    intro it cur hfind hopen hsame
    exact insert_item_same_price db row it cur hfind hopen hsame
  · -- (C)
    intro it cur hfind hopen hdiff
    exact insert_item_diff_price db row it cur hfind hopen hdiff
  · -- (D)
    intro hfind hfresh
    have hopen0 : openRowsFor db db.next_item_id = [] := by
      rw [openRowsFor_eq_filter, hfresh]
      rfl
    have h1 := insert_item_fresh db row hfind hopen0
    rw [h1]
    have hnilitems : db.items.filter (itemTripleMatch row) = [] := by
      rwa [← List.head?_eq_none_iff]
    have hfind2 : (({ db with
        items := db.items ++ [createdItem db row]
        next_item_id := db.next_item_id + 1
        price_history := db.price_history
          ++ [newPriceRow db.next_price_id db.next_item_id (rowComps row)]
        next_price_id := db.next_price_id + 1 } : DB).items.filter
          (itemTripleMatch row)).head? = some (createdItem db row) := by
      simp [List.filter_append, hnilitems, itemTripleMatch, createdItem]
    have hopen2 : openRowsFor { db with
        items := db.items ++ [createdItem db row]
        next_item_id := db.next_item_id + 1
        price_history := db.price_history
          ++ [newPriceRow db.next_price_id db.next_item_id (rowComps row)]
        next_price_id := db.next_price_id + 1 } (createdItem db row).id
        = [newPriceRow db.next_price_id db.next_item_id (rowComps row)] := by
      rw [openRowsFor_append db _
        (newPriceRow db.next_price_id db.next_item_id (rowComps row))
        (createdItem db row).id rfl]
      have : openRowsFor db (createdItem db row).id = [] := hopen0
      rw [this]
      simp [newPriceRow, createdItem]
    have h2 := insert_item_same_price _ row (createdItem db row)
      (newPriceRow db.next_price_id db.next_item_id (rowComps row))
      hfind2 hopen2 rfl
    rw [h2]
    exact ⟨rfl, rfl⟩
  · -- (E)
    intro row2 hc hn hcol hne hfind hfresh
    have hpred : itemTripleMatch row2 = itemTripleMatch row := by
      funext it
      simp [itemTripleMatch, hc, hn, hcol]
    have hopen0 : openRowsFor db db.next_item_id = [] := by
      rw [openRowsFor_eq_filter, hfresh]
      rfl
    have h1 := insert_item_fresh db row hfind hopen0
    rw [h1]
    have hnilitems : db.items.filter (itemTripleMatch row) = [] := by
      rwa [← List.head?_eq_none_iff]
    have hfind2 : (({ db with
        items := db.items ++ [createdItem db row]
        next_item_id := db.next_item_id + 1
        price_history := db.price_history
          ++ [newPriceRow db.next_price_id db.next_item_id (rowComps row)]
        next_price_id := db.next_price_id + 1 } : DB).items.filter
          (itemTripleMatch row2)).head? = some (createdItem db row) := by
      rw [hpred]
      simp [List.filter_append, hnilitems, itemTripleMatch, createdItem]
    have hopen2 : openRowsFor { db with
        items := db.items ++ [createdItem db row]
        next_item_id := db.next_item_id + 1
        price_history := db.price_history
          ++ [newPriceRow db.next_price_id db.next_item_id (rowComps row)]
        next_price_id := db.next_price_id + 1 } (createdItem db row).id
        = [newPriceRow db.next_price_id db.next_item_id (rowComps row)] := by
      rw [openRowsFor_append db _
        (newPriceRow db.next_price_id db.next_item_id (rowComps row))
        (createdItem db row).id rfl]
      have : openRowsFor db (createdItem db row).id = [] := hopen0
      rw [this]
      simp [newPriceRow, createdItem]
    have hdiff : (newPriceRow db.next_price_id db.next_item_id
        (rowComps row)).comps ≠ rowComps row2 := by
      simpa [newPriceRow] using fun he => hne he.symm
    have h2 := insert_item_diff_price _ row2 (createdItem db row)
      (newPriceRow db.next_price_id db.next_item_id (rowComps row))
      hfind2 hopen2 hdiff
    rw [h2]
    have hfreshnil : ∀ r ∈ db.price_history,
        ¬ (r.item_id == db.next_item_id) = true := by
      intro r hr
      have := congrArg (fun l => r ∈ l) hfresh
      simp [priceRowsFor, List.mem_filter, hr] at this
      simp [this]
    simp only [priceRowsFor, List.filter_append, List.map_append]
    rw [List.filter_eq_nil_iff.mpr ?hmapnil]
    case hmapnil =>
      intro r hr
      obtain ⟨r0, hr0, rfl⟩ := List.mem_map.mp hr
      rw [closePriceAt_item_id]
      exact hfreshnil r0 hr0
    simp [closePriceAt, newPriceRow, createdItem]

/-- Witness for C1: on the empty store, reconciling with c1 then c2 leaves
exactly two versions (first closed at now = 7, second open), and
reconciling with c1 then c1 reports price_changed = false the second
time. -/
theorem insert_item_price_versioning_witness :
    priceRowsFor
        (insert_item noItemFail (insert_item noItemFail dbEmptyW rowC1W).2
          rowC2W).2 1
      = [ { id := 1, item_id := 1, comps := rowComps rowC1W,
            harga_jual := none, valid_to := some 7 },
          newPriceRow 2 1 (rowComps rowC2W) ] ∧
    (insert_item noItemFail (insert_item noItemFail dbEmptyW rowC1W).2
        rowC1W).1.2.2.map (fun r => r.price_changed) = some (some false) := by
  constructor
  · exact (insert_item_price_versioning dbEmptyW rowC1W).2.2.2.2 rowC2W
      rfl rfl rfl (by decide) (by decide) (by decide)
  · exact ((insert_item_price_versioning dbEmptyW rowC1W).2.2.2.1
      (by decide) (by decide)).1

/-- Lower-casing code points is idempotent. -/
theorem lowerCode_lowerCode (n : Nat) :
    lowerCode (lowerCode n) = lowerCode n := by
  unfold lowerCode
  repeat' split
  all_goals omega

/-- Lower-casing after upper-casing equals lower-casing. -/
theorem lowerCode_upperCode (n : Nat) :
    lowerCode (upperCode n) = lowerCode n := by
  unfold lowerCode upperCode
  repeat' split
  all_goals omega

/-- Lower-casing maps no other code onto a wildcard. -/
theorem lowerCode_wild (n : Nat)
    (h : lowerCode n = 37 ∨ lowerCode n = 95 ∨ lowerCode n = 92) :
    n = 37 ∨ n = 95 ∨ n = 92 := by
  unfold lowerCode at h
  split at h <;> omega

/-- Upper-casing maps no other code onto a wildcard. -/
theorem upperCode_wild (n : Nat)
    (h : upperCode n = 37 ∨ upperCode n = 95 ∨ upperCode n = 92) :
    n = 37 ∨ n = 95 ∨ n = 92 := by
  unfold upperCode at h
  split at h <;> omega

/-- str.title never changes the lower-cased form of a string. -/
theorem titleCodes_lower (b : Bool) (l : List Nat) :
    (titleCodes b l).map lowerCode = l.map lowerCode := by
  induction l generalizing b with
  | nil => rfl
  | cons n rest ih =>
    unfold titleCodes
    by_cases ha : isAlphaCode n = true
    · simp only [ha, if_true, List.map_cons, ih]
      cases b <;> simp [lowerCode_lowerCode, lowerCode_upperCode]
    · simp [ha, ih]

/-- str.title introduces no wildcard characters. -/
theorem titleCodes_no_wild (b : Bool) (l : List Nat)
    (h : ∀ n ∈ l, ¬ (n = 37 ∨ n = 95 ∨ n = 92)) :
    ∀ m ∈ titleCodes b l, ¬ (m = 37 ∨ m = 95 ∨ m = 92) := by
  induction l generalizing b with
  | nil =>
    intro m hm
    simp [titleCodes] at hm
  | cons n rest ih =>
    intro m hm
    have hrest : ∀ x ∈ rest, ¬ (x = 37 ∨ x = 95 ∨ x = 92) :=
      fun x hx => h x (by simp [hx])
    have hn := h n (by simp)
    unfold titleCodes at hm
    by_cases ha : isAlphaCode n = true
    · rw [if_pos ha] at hm
      have hhead : ¬ ((if b then lowerCode n else upperCode n) = 37 ∨
          (if b then lowerCode n else upperCode n) = 95 ∨
          (if b then lowerCode n else upperCode n) = 92) := by
        cases b with
        | false =>
          intro hw
          simp only [Bool.false_eq_true, if_false] at hw
          exact hn (upperCode_wild n hw)
        | true =>
          intro hw
          simp only [if_true] at hw
          exact hn (lowerCode_wild n hw)
      rcases List.mem_cons.mp hm with he | hm2
      · rw [he]
        exact hhead
      · exact ih true hrest m hm2
    · rw [if_neg ha] at hm
      rcases List.mem_cons.mp hm with he | hm2
      · rw [he]
        exact hn
      · exact ih false hrest m hm2

/-- Without wildcards, an ILIKE pattern matches exactly the
case-insensitively equal strings. -/
theorem ilikeCodes_no_wild (p : List Nat)
    (h : ∀ n ∈ p, ¬ (n = 37 ∨ n = 95 ∨ n = 92)) (s : List Nat) :
    ilikeCodes p s = true ↔ p.map lowerCode = s.map lowerCode := by
  induction p generalizing s with
  | nil => cases s <;> simp [ilikeCodes]
  | cons n ps ih =>
    have hn := h n (by simp)
    have h92 : ¬ n = 92 := fun he => hn (Or.inr (Or.inr he))
    have h37 : ¬ n = 37 := fun he => hn (Or.inl he)
    have h95 : ¬ n = 95 := fun he => hn (Or.inr (Or.inl he))
    have hps : ∀ x ∈ ps, ¬ (x = 37 ∨ x = 95 ∨ x = 92) :=
      fun x hx => h x (by simp [hx])
    cases s with
    | nil => simp [ilikeCodes, h92, h37, h95]
    | cons c cs =>
      rw [ilikeCodes.eq_def]
      simp only [if_neg h92, if_neg h37, if_neg h95]
      simp only [List.map_cons, Bool.and_eq_true, beq_iff_eq, ih hps cs,
        List.cons.injEq]

/-- Upper-casing then lower-casing a string equals lower-casing it. -/
theorem map_lower_upper (l : List Nat) :
    (l.map upperCode).map lowerCode = l.map lowerCode := by
  induction l with
  | nil => rfl
  | cons n rest ih => simp [lowerCode_upperCode, ih]

/-- The title-cased candidate matches a stored value under ILIKE exactly
when the two are case-insensitively equal, provided the candidate has no
wildcard characters. -/
theorem ilike_title_iff (val s : String)
    (h : ∀ n ∈ strCodes val, ¬ (n = 37 ∨ n = 95 ∨ n = 92)) :
    ilikeCodes (pyTitle val) (strCodes s) = true ↔
      lowerEq (strCodes val) (strCodes s) := by
  rw [ilikeCodes_no_wild (pyTitle val) (titleCodes_no_wild false _ h)]
  unfold lowerEq pyTitle
  rw [titleCodes_lower]

/-- Same bridge for the upper-cased candidate of the code validator. -/
theorem ilike_upper_iff (val s : String)
    (h : ∀ n ∈ strCodes val, ¬ (n = 37 ∨ n = 95 ∨ n = 92)) :
    ilikeCodes (pyUpper val) (strCodes s) = true ↔
      lowerEq (strCodes val) (strCodes s) := by
  rw [ilikeCodes_no_wild]
  · unfold lowerEq pyUpper
    rw [map_lower_upper]
  · intro m hm hw
    obtain ⟨n, hn, rfl⟩ := List.mem_map.mp hm
    exact h n hn (upperCode_wild n hw)

/-- The wildcard-free duplicate check is exactly case-insensitive
duplication. -/
theorem is_exist_title_false_iff (stored : List String) (val : String)
    (h : ∀ n ∈ strCodes val, ¬ (n = 37 ∨ n = 95 ∨ n = 92)) :
    is_exist stored (pyTitle val) = false ↔ NoCaseDup stored val := by
  unfold is_exist NoCaseDup
  rw [← Bool.not_eq_true, List.any_eq_true]
  constructor
  · intro hf s hs he
    exact hf ⟨s, hs, (ilike_title_iff val s h).mpr he⟩
  · rintro hd ⟨s, hs, ht⟩
    exact hd s hs ((ilike_title_iff val s h).mp ht)

/-- The same, for the upper-cased pattern of the code validator. -/
theorem is_exist_upper_false_iff (stored : List String) (val : String)
    (h : ∀ n ∈ strCodes val, ¬ (n = 37 ∨ n = 95 ∨ n = 92)) :
    is_exist stored (pyUpper val) = false ↔ NoCaseDup stored val := by
  unfold is_exist NoCaseDup
  rw [← Bool.not_eq_true, List.any_eq_true]
  constructor
  · intro hf s hs he
    exact hf ⟨s, hs, (ilike_upper_iff val s h).mpr he⟩
  · rintro hd ⟨s, hs, ht⟩
    exact hd s hs ((ilike_upper_iff val s h).mp ht)

/-- The Boolean regex test decides the FormatOk predicate. -/
theorem pyMatchClassRange_iff (cls : Nat → Bool) (lo hi : Nat)
    (val : String) :
    pyMatchClassRange cls lo hi val = true ↔ FormatOk cls lo hi val := by
  unfold pyMatchClassRange FormatOk
  cases hlast : (strCodes val).getLast? with
  | none => simp [hlast, List.all_eq_true, and_assoc]
  | some c =>
    by_cases hc : c = 10
    · subst hc
      simp [hlast, List.all_eq_true, and_assoc]
    · simp [hlast, hc, List.all_eq_true, and_assoc]

/-- A class that contains no wildcard makes FormatOk strings
wildcard-free (a trailing newline is not a wildcard either). -/
theorem formatOk_no_wild (cls : Nat → Bool) (lo hi : Nat) (val : String)
    (hcls : ∀ n, cls n = true → ¬ (n = 37 ∨ n = 95 ∨ n = 92))
    (h : FormatOk cls lo hi val) :
    ∀ n ∈ strCodes val, ¬ (n = 37 ∨ n = 95 ∨ n = 92) := by
  intro n hn
  rcases h with ⟨_, _, hall⟩ | ⟨hlast, _, _, hall⟩
  · exact hcls n (hall n hn)
  · rcases List.eq_nil_or_concat (strCodes val) with hnil | ⟨l', a, hl⟩
    · rw [hnil] at hlast
      simp at hlast
    · rw [List.concat_eq_append] at hl
      rw [hl] at hlast hn hall
      have ha : a = 10 := by
        simpa using hlast
      have hdrop : (l' ++ [a]).dropLast = l' := by
        rw [List.dropLast_concat]
      rw [hdrop] at hall
      rcases List.mem_append.mp hn with hn' | hn'
      · exact hcls n (hall n hn')
      · have hna : n = a := by simpa using hn'
        omega

/-- The category/color class contains no wildcard. -/
theorem catColorClass_no_wild (n : Nat) (h : catColorClass n = true) :
    ¬ (n = 37 ∨ n = 95 ∨ n = 92) := by
  intro hw
  rcases hw with rfl | rfl | rfl <;> exact absurd h (by decide)

/-- The letters-only class of the code validator contains no wildcard. -/
theorem isAlphaCode_no_wild (n : Nat) (h : isAlphaCode n = true) :
    ¬ (n = 37 ∨ n = 95 ∨ n = 92) := by
  intro hw
  rcases hw with rfl | rfl | rfl <;> exact absurd h (by decide)

/-- A string with a nonempty right half of an append is nonempty. -/
theorem append_ne_empty_right (a b : String) (h : b ≠ "") :
    a ++ b ≠ "" := by
  intro he
  apply h
  have hlen := congrArg String.length he
  rw [String.length_append] at hlen
  simp only [String.length_empty] at hlen
  have hb : b.length = 0 := by omega
  cases b with
  | mk data =>
    cases data with
    | nil => rfl
    | cons c cs => simp [String.length, List.length] at hb

/-- A FormatOk string with lower bound at least 1 is nonempty. -/
theorem formatOk_ne_empty (cls : Nat → Bool) (lo hi : Nat) (val : String)
    (hlo : 1 ≤ lo) (h : FormatOk cls lo hi val) : ¬ val = "" := by
  intro he
  subst he
  rcases h with ⟨h1, _⟩ | ⟨h1, _⟩
  · have h0 : (strCodes "").length = 0 := by decide
    omega
  · exact absurd h1 (by decide)

/-- The duplicate check is false exactly when no stored value matches. -/
theorem is_exist_false_iff_all (stored : List String) (pat : List Nat) :
    is_exist stored pat = false ↔
      ∀ s ∈ stored, ilikeCodes pat (strCodes s) = false := by
  unfold is_exist
  rw [List.any_eq_false]
  constructor
  · intro h s hs
    simpa using h s hs
  · intro h s hs
    simp [h s hs]

/-- Acceptance characterization for the validators with the shape
empty-check, then format regex, then duplicate check. -/
theorem validator_shape_iff (stored : List String) (val : String)
    (cls : Nat → Bool) (lo hi : Nat) (pat : List Nat)
    (m1 m2 m3 : String) (D : Prop) (hlo : 1 ≤ lo)
    (hbridge : FormatOk cls lo hi val →
      (is_exist stored pat = false ↔ D)) :
    ((if val = "" then ((false, m1) : Bool × String)
      else if !(pyMatchClassRange cls lo hi val) then (false, m2)
      else if is_exist stored pat then (false, m3)
      else (true, "")).1 = true) ↔ (FormatOk cls lo hi val ∧ D) := by
  by_cases hemp : val = ""
  · rw [if_pos hemp]
    constructor
    · intro hf
      simp at hf
    · rintro ⟨hfmt, _⟩
      exact absurd hemp (formatOk_ne_empty cls lo hi val hlo hfmt)
  · rw [if_neg hemp]
    by_cases hm : pyMatchClassRange cls lo hi val = true
    · rw [if_neg (by simp [hm])]
      by_cases hdup : is_exist stored pat = true
      · rw [if_pos hdup]
        constructor
        · intro hf
          simp at hf
        · rintro ⟨hfmt, hD⟩
          rw [(hbridge hfmt).mpr hD] at hdup
          simp at hdup
      · rw [if_neg hdup]
        have hdup2 : is_exist stored pat = false := by
          simpa using hdup
        constructor
        · intro _
          exact ⟨(pyMatchClassRange_iff cls lo hi val).mp hm,
                 (hbridge ((pyMatchClassRange_iff cls lo hi val).mp hm)).mp
                   hdup2⟩
        · intro _
          rfl
    · have hm2 : pyMatchClassRange cls lo hi val = false := by
        simpa using hm
      rw [if_pos (by simp [hm2])]
      constructor
      · intro hf
        simp at hf
      · rintro ⟨hfmt, _⟩
        exact absurd ((pyMatchClassRange_iff cls lo hi val).mpr hfmt) hm

/-- Counterexample to C8 as stated: the category-code validator accepts
the three-character string "AB\n" (the Python `$` anchor also matches just
before a final newline), which is not a string of exactly two letters. -/
theorem validate_category_code_counterexample :
    validate_category_code [] ("AB
") = (true, "") ∧
    ¬ ((strCodes ("AB
")).length = 2 ∧
        ∀ n ∈ strCodes ("AB
"), isAlphaCode n = true) := by
  constructor
  · decide
  · decide

/-- C8 amended: category/color validators accept exactly the candidates of
their format (letters, Python-\s whitespace, hyphens, apostrophes, 2–50
characters, optionally one extra trailing newline) with no case-insensitive
duplicate stored; the code validator accepts exactly two letters (again up
to one trailing newline) with no case-insensitive duplicate; the item-name
validator accepts exactly its format (digits and underscores also allowed)
such that no stored value is matched by the title-cased candidate under
case-insensitive LIKE semantics, where an underscore matches any single
character; and every rejection returns ok = false with a nonempty reason
(the validators read but never write). -/
theorem master_data_validators_characterization
    (categories category_codes colors item_names : List String)
    (val : String) :
    ((validate_category_name categories val).1 = true ↔
      (FormatOk catColorClass 2 50 val ∧ NoCaseDup categories val)) ∧
    ((validate_color_name colors val).1 = true ↔
      (FormatOk catColorClass 2 50 val ∧ NoCaseDup colors val)) ∧
    ((validate_category_code category_codes val).1 = true ↔
      (FormatOk isAlphaCode 2 2 val ∧ NoCaseDup category_codes val)) ∧
    ((validate_item_name item_names val).1 = true ↔
      (FormatOk itemNameClass 2 50 val ∧
        ∀ s ∈ item_names, ilikeCodes (pyTitle val) (strCodes s) = false)) ∧
    ((validate_category_name categories val).1 = false →
      (validate_category_name categories val).2 ≠ "") ∧
    ((validate_color_name colors val).1 = false →
      (validate_color_name colors val).2 ≠ "") ∧
    ((validate_category_code category_codes val).1 = false →
      (validate_category_code category_codes val).2 ≠ "") ∧
    ((validate_item_name item_names val).1 = false →
      (validate_item_name item_names val).2 ≠ "") := by
  refine ⟨?_, ?_, ?_, ?_, ?_, ?_, ?_, ?_⟩
  · -- category name: duplicate check first, then emptiness, then format
    unfold validate_category_name
    by_cases hdup : is_exist categories (pyTitle val) = true
    · rw [if_pos hdup]
      constructor
      · intro hf
        simp at hf
      · rintro ⟨hfmt, hnd⟩
        have hnw := formatOk_no_wild catColorClass 2 50 val
          catColorClass_no_wild hfmt
        rw [(is_exist_title_false_iff categories val hnw).mpr hnd] at hdup
        simp at hdup
    · rw [if_neg hdup]
      have hdup2 : is_exist categories (pyTitle val) = false := by
        simpa using hdup
      by_cases hemp : val = ""
      · rw [if_pos hemp]
        constructor
        · intro hf
          simp at hf
        · rintro ⟨hfmt, _⟩
          exact absurd hemp (formatOk_ne_empty catColorClass 2 50 val
            (by norm_num) hfmt)
      · rw [if_neg hemp]
        by_cases hm : pyMatchClassRange catColorClass 2 50 val = true
        · rw [if_neg (by simp [hm])]
          constructor
          · intro _
            have hfmt := (pyMatchClassRange_iff catColorClass 2 50 val).mp hm
            have hnw := formatOk_no_wild catColorClass 2 50 val
              catColorClass_no_wild hfmt
            exact ⟨hfmt, (is_exist_title_false_iff categories val hnw).mp hdup2⟩
          · intro _
            rfl
        · have hm2 : pyMatchClassRange catColorClass 2 50 val = false := by
            simpa using hm
          rw [if_pos (by simp [hm2])]
          constructor
          · intro hf
            simp at hf
          · rintro ⟨hfmt, _⟩
            exact absurd ((pyMatchClassRange_iff catColorClass 2 50 val).mpr
              hfmt) hm
  · unfold validate_color_name
    exact validator_shape_iff colors val catColorClass 2 50 (pyTitle val)
      _ _ _ (NoCaseDup colors val) (by norm_num)
      (fun hfmt => is_exist_title_false_iff colors val
        (formatOk_no_wild catColorClass 2 50 val catColorClass_no_wild hfmt))
  · unfold validate_category_code
    exact validator_shape_iff category_codes val isAlphaCode 2 2
      (pyUpper val) _ _ _ (NoCaseDup category_codes val) (by norm_num)
      (fun hfmt => is_exist_upper_false_iff category_codes val
        (formatOk_no_wild isAlphaCode 2 2 val isAlphaCode_no_wild hfmt))
  · unfold validate_item_name
    exact validator_shape_iff item_names val itemNameClass 2 50
      (pyTitle val) _ _ _
      (∀ s ∈ item_names, ilikeCodes (pyTitle val) (strCodes s) = false)
      (by norm_num)
      (fun _ => is_exist_false_iff_all item_names (pyTitle val))
  · unfold validate_category_name
    split
    · intro _
      exact append_ne_empty_right _ _ (by decide)
    · split
      · intro _
        decide
      · split
        · intro _
          decide
        · intro hf
          simp at hf
  · unfold validate_color_name
    split
    · intro _
      decide
    · split
      · intro _
        decide
      · split
        · intro _
          exact append_ne_empty_right _ _ (by decide)
        · intro hf
          simp at hf
  · unfold validate_category_code
    split
    · intro _
      decide
    · split
      · intro _
        decide
      · split
        · intro _
          exact append_ne_empty_right _ _ (by decide)
        · intro hf
          simp at hf
  · unfold validate_item_name
    split
    · intro _
      decide
    · split
      · intro _
        decide
      · split
        · intro _
          exact append_ne_empty_right _ _ (by decide)
        · intro hf
          simp at hf

/-- Witness for C8 (amended): "Dress" is accepted as a category name on an
empty store, and the rejected malformed code "A1" comes with a nonempty
reason. -/
theorem master_data_validators_characterization_witness :
    (validate_category_name [] ("Dress")).1 = true ∧
    ((validate_category_code [] ("A1")).1 = false →
      (validate_category_code [] ("A1")).2 ≠ "") := by
  constructor
  · exact (master_data_validators_characterization [] [] [] [] ("Dress")).1.mpr
      ⟨by unfold FormatOk; decide, by intro s hs; simp at hs⟩
  · exact (master_data_validators_characterization [] [] [] [] ("A1")).2.2.2.2.2.2.1

/-- C4 (evidence of the code bug): on a store with one stocked item and one
valid order line, the mapping built by `get_items_in_stock` does contain
the line's (sku, size) pair, yet committing aborts with a KeyError on the
absent "item_id" key before any transfer is invoked: the movement ledger
stays empty.  The page's own comment documents an item_id field that
`get_items_in_stock` never produces. -/
theorem commit_loop_item_id_keyerror :
    (List.lookup (("SKU1"), ("OS"))
        (sku_size_to_key (get_items_in_stock db4 (some 4)))).isSome = true ∧
    commitLoop noLogFail (get_items_in_stock db4 (some 4)) 4 1
        [{ sku := some ("SKU1"), size := some ("OS"), qty := 1 }] db4
      = (Except.error ("KeyError: " ++ sq ++ "item_id" ++ sq), db4) ∧
    (commitLoop noLogFail (get_items_in_stock db4 (some 4)) 4 1
        [{ sku := some ("SKU1"), size := some ("OS"), qty := 1 }]
        db4).2.item_stock_log = [] := by
  refine ⟨by decide, by rfl, by decide⟩

end Kalyn
